import Mathlib

/-!
Verification of the SSSV_Recomp billboard ortho-quad rewrite engine
(src/src/game/trophy_collision_patch.cpp) against its natural-language
specification.

The C++ source is shallowly embedded:
* machine integers become `Nat`/`Int` with explicit `% 2^w` where wrap-around
  matters (`u32`, `u16`, `u64sub`);
* IEEE-754 single-precision values are modelled by exact rational arithmetic
  (`ℚ`); every float expression of the source is translated operation by
  operation;
* the mutable globals (`s_alloc`, `g_prev_quads`, `g_quad_stamp`,
  `g_billboard_frame_count`) become an explicit `EngineState` threaded through
  the engine;
* reads from the emulated memory image become fields of `MemImage`, and the
  engine additionally returns the ordered list of memory-image reads it
  performed (`ReadTag`), so that gate-ordering properties are statable;
* display-list emission is modelled as the list of command records written
  plus the updated append cursor.
-/

namespace SSSV

/-- Two's-complement truncation of an `Int` to an unsigned 32-bit value,
modelling `static_cast<uint32_t>` in the C++ source. -/
def u32 (x : Int) : Nat := (x % (2 ^ 32)).toNat

/-- Two's-complement truncation of an `Int` to an unsigned 16-bit value,
modelling `static_cast<uint16_t>` in the C++ source. -/
def u16 (x : Int) : Nat := (x % (2 ^ 16)).toNat

/-- Arithmetic right shift of a 32-bit signed integer, modelling the C++
expression `x >> n` on `int32_t` (which shifts in sign bits, i.e. floor
division by `2^n`). -/
def asr (x : Int) (n : Nat) : Int := Int.fdiv x (2 ^ n)

/-- Wrapping subtraction of two unsigned 64-bit values (both `< 2^64`),
modelling `uint64_t` subtraction `a - b` in the C++ source. -/
def u64sub (a b : Nat) : Nat := ((a + 2 ^ 64) - b) % (2 ^ 64)

/-- Model of C `lround`: round to nearest integer, halfway cases away from
zero. -/
def lround_q (q : ℚ) : Int := if q < 0 then -⌊-q + 1/2⌋ else ⌊q + 1/2⌋

/-- Model of `clamp_i16` from the source: `std::clamp(lround(value), -32768,
32767)` truncated to `int16_t` (the clamp makes the cast lossless). -/
def clamp_i16 (value : ℚ) : Int := max (-32768) (min (lround_q value) 32767)

/-- Model of `std::clamp(v, lo, hi)` on floats: `v < lo ? lo : hi < v ? hi : v`. -/
def clamp_q (v lo hi : ℚ) : ℚ := if v < lo then lo else if hi < v then hi else v

/-- Model of `std::min` on floats. -/
def min_q (a b : ℚ) : ℚ := min a b

/-- `hash_u32` from the source: one FNV-1a mixing step on `uint32_t`
(`hash ^= value; hash *= 16777619`). -/
def hash_u32 (hash value : Nat) : Nat := ((hash ^^^ value) * 16777619) % (2 ^ 32)

/-- `billboard_group_id` from the source: FNV-1a style mixing of the three
world coordinates (`uint32_t` casts of `int32_t`), the two half extents
(`uint16_t` casts of `int16_t`), the scale (`uint32_t` cast), then XOR with
the salt; a zero result is remapped to the sentinel `1`. -/
def billboard_group_id (x y z : Int) (w h : Int) (s : Int) (salt : Nat) : Nat :=
  let h0 : Nat := 2166136261
  let h1 := hash_u32 h0 (u32 x)
  let h2 := hash_u32 h1 (u32 y)
  let h3 := hash_u32 h2 (u32 z)
  let h4 := hash_u32 h3 (u16 w)
  let h5 := hash_u32 h4 (u16 h)
  let h6 := hash_u32 h5 (u32 s)
  let h7 := (h6 ^^^ salt) % (2 ^ 32)
  if h7 = 0 then 1 else h7

/-- The identity computation of the spec (§4.3 `compute_identity`): the engine
quantizes the world coordinates by an arithmetic right shift of
`hash_coord_shift` bits (source lines 698-700) and feeds the quantized
coordinates to `billboard_group_id` (source line 705). -/
def compute_identity (shift : Nat) (x y z : Int) (w h : Int) (s : Int) (salt : Nat) : Nat :=
  billboard_group_id (asr x shift) (asr y shift) (asr z shift) w h s salt

/-! ### Scratch-pool allocator (`BillboardAllocator`, `allocate_billboard_data`) -/

/-- `BILLBOARD_POOL_VRAM` from the source. -/
def BILLBOARD_POOL_VRAM : Nat := 0x80900000

/-- `BILLBOARD_POOL_SLOTS` from the source. -/
def BILLBOARD_POOL_SLOTS : Int := 8192

/-- `BILLBOARD_SLOT_BYTES` from the source. -/
def BILLBOARD_SLOT_BYTES : Int := 16

/-- The per-frame billboard allocator state `BillboardAllocator` from the
source.  `gpr` address values are modelled by their unsigned 32-bit contents
(`Nat`), float matrices by `Fin 16 → ℚ`. -/
structure BillboardAllocator where
  dl_state : Nat
  used_slots : Int
  proj_mtx_addr : Nat
  view_mtx_addr : Nat
  screen_w : Int
  screen_h : Int
  matrices_cached : Bool
  vp_mtx : Fin 16 → ℚ
  vp_cached : Bool

/-- `allocate_billboard_data` from the source: round `bytes_needed` up to
16-byte slots with C integer division (truncation), fail without side effect
if the pool would overflow, otherwise advance `used_slots` and return the pool
base address plus the prior offset (`uint32_t` arithmetic). -/
def allocate_billboard_data (st : BillboardAllocator) (bytes_needed : Int) :
    Option Nat × BillboardAllocator :=
  let slots_needed := Int.tdiv (bytes_needed + (BILLBOARD_SLOT_BYTES - 1)) BILLBOARD_SLOT_BYTES
  if st.used_slots + slots_needed > BILLBOARD_POOL_SLOTS then
    (none, st)
  else
    let offset := (u32 st.used_slots * 16) % (2 ^ 32)
    let addr := (BILLBOARD_POOL_VRAM + offset) % (2 ^ 32)
    (some addr, { st with used_slots := st.used_slots + slots_needed })

/-- Folding a sequence of allocation requests through the allocator,
discarding the returned addresses (used to state sequence-level invariants). -/
def allocRun (st : BillboardAllocator) (reqs : List Int) : BillboardAllocator :=
  List.foldl (fun s b => (allocate_billboard_data s b).2) st reqs

/-- The frame-change detection of the source (lines 502-506 of
`rewrite_billboard_ortho_quad`, the operation the spec calls
`detect_new_frame`): when the display-list-state token differs from the
stored one, store the new token, reset `used_slots` to 0 and clear both the
matrix cache flag and the view-projection cache flag; otherwise do nothing. -/
def detect_new_frame (st : BillboardAllocator) (tok : Nat) : BillboardAllocator :=
  if st.dl_state ≠ tok then
    { st with dl_state := tok, used_slots := 0, matrices_cached := false, vp_cached := false }
  else
    st

/-! ### Identity/interpolation cache (`PrevQuad`, source lines 708-736) -/

/-- `PrevQuad` from the source: previous screen-space quad corners plus a
quantized-position signature and the `uint64_t` stamp of the last update. -/
structure PrevQuad where
  x : Fin 4 → Int
  y : Fin 4 → Int
  sig_x : Int
  sig_y : Int
  sig_z : Int
  stamp : Nat
deriving DecidableEq

/-- The identity-cache lookup-and-update step of the source (lines 710-736):
`stamp` is the already-incremented `g_quad_stamp` of this call.  If an entry
for `gid` exists, is recent (`g_quad_stamp - pq.stamp <= 300` in `uint64_t`
arithmetic) and its signature matches the current quantized position, its
stored corners become the previous corners, else the current corners do.
The entry for `gid` is then overwritten with the current corners, signature
and stamp (`g_prev_quads` is modelled as an association list with unique
keys). -/
def prevQuadLookupUpdate (m : List (Nat × PrevQuad)) (stamp : Nat) (gid : Nat)
    (cur_x cur_y : Fin 4 → Int) (qx qy qz : Int) :
    ((Fin 4 → Int) × (Fin 4 → Int)) × List (Nat × PrevQuad) :=
  let prev : (Fin 4 → Int) × (Fin 4 → Int) :=
    match m.lookup gid with
    | some pq =>
        if u64sub stamp pq.stamp ≤ 300 ∧ pq.sig_x = qx ∧ pq.sig_y = qy ∧ pq.sig_z = qz then
          (pq.x, pq.y)
        else
          (cur_x, cur_y)
    | none => (cur_x, cur_y)
  let entry : PrevQuad := ⟨cur_x, cur_y, qx, qy, qz, stamp⟩
  (prev, (gid, entry) :: m.filter (fun p => p.1 ≠ gid))

/-! ### Matrix utilities (`write_identity`, `write_ortho`) -/

/-- A 16-element float matrix in the column-major layout of the source. -/
def Mat4 : Type := Fin 16 → ℚ

/-- `write_identity` from the source: zero everywhere except entries 0, 5,
10, 15 which are 1. -/
def write_identity : Mat4 := fun i =>
  if i.val = 0 ∨ i.val = 5 ∨ i.val = 10 ∨ i.val = 15 then 1 else 0

/-- `write_ortho` from the source: start from the identity and overwrite
entries 0, 5, 10, 12, 13, 14 with the standard OpenGL orthographic
projection coefficients. -/
def write_ortho (left right bottom top near_plane far_plane : ℚ) : Mat4 :=
  let inv_rl := 1 / (right - left)
  let inv_tb := 1 / (top - bottom)
  let inv_fn := 1 / (far_plane - near_plane)
  fun i =>
    if i.val = 0 then 2 * inv_rl
    else if i.val = 5 then 2 * inv_tb
    else if i.val = 10 then -2 * inv_fn
    else if i.val = 12 then -(right + left) * inv_rl
    else if i.val = 13 then -(top + bottom) * inv_tb
    else if i.val = 14 then -(far_plane + near_plane) * inv_fn
    else write_identity i

/-- Application of a column-major `Mat4` to a homogeneous 4-vector: component
`i` of the result is `Σ c, m[c*4+i] * v[c]` (the matrix's column convention,
with the translation in entries 12-14). -/
def applyMat4 (m : Mat4) (v : Fin 4 → ℚ) : Fin 4 → ℚ := fun i =>
  m ⟨i.val, by omega⟩ * v 0 + m ⟨4 + i.val, by omega⟩ * v 1 +
    m ⟨8 + i.val, by omega⟩ * v 2 + m ⟨12 + i.val, by omega⟩ * v 3

end SSSV

namespace SSSV

/-! ### Engine data types -/

/-- `RewriteOutcome` from the source. -/
inductive RewriteOutcome where
  | Emitted
  | InvalidArgs
  | InvalidScreen
  | MissingDlState
  | BehindCamera
  | InvalidClipW
  | InvalidFov
  | InvalidSpriteScale
  | Offscreen
  | AllocFail
  | GfxPtrFail
  | GfxCapacityFail
deriving DecidableEq

/-- `RewriteTrace` from the source (float fields as `ℚ`), with the source's
zero initializers as defaults. -/
structure RewriteTrace where
  world_x : Int := 0
  world_y : Int := 0
  world_z : Int := 0
  half_w : Int := 0
  half_h : Int := 0
  scale : Int := 0
  screen_w : Int := 0
  screen_h : Int := 0
  cam_z : ℚ := 0
  clip_w : ℚ := 0
  sprite_scale : ℚ := 0
  xl : ℚ := 0
  yl : ℚ := 0
  xh : ℚ := 0
  yh : ℚ := 0
  group_id : Nat := 0

/-- `BillboardConfig` from the source, defaults included. -/
structure BillboardConfig where
  hash_salt : Nat := 0x73F17C00
  scale_clamp_min : ℚ := 0
  scale_clamp_max : ℚ := 16383
  dual_scale : Bool := false
  geom_half_h : Int := 0
  y_top_mul : ℚ := 1
  y_bottom_fixed : ℚ := 0
  screen_wrap : Bool := false
  offset_clamp : Int := 0
  hash_includes_scale : Bool := true
  hash_coord_shift : Nat := 0

/-- The three world-coordinate register arguments of the engine
(`static_cast<int32_t>(ctx->r5..r7)`). -/
structure CtxRegs where
  world_x : Int
  world_y : Int
  world_z : Int

/-- The values the engine can read from the emulated memory image, one field
per distinct read site of the source; integer fields carry the value after
the source's narrowing cast, addresses and tokens their unsigned 32-bit
contents.  `fov_finite` models whether the float bits at the FOV address
denote a finite value (the one read the source guards with `std::isfinite`;
all other float reads are modelled as finite rationals). -/
structure MemImage where
  half_w : Int
  half_h : Int
  scale : Int
  scale_y : Int
  screen_w : Int
  screen_h : Int
  dl_state : Nat
  vp : Fin 16 → ℚ
  fov_y : ℚ
  fov_finite : Bool
  prim_depth_bias : Int
  gdl : Nat

/-- One memory-image read performed by the engine, in program order. -/
inductive ReadTag where
  | stackHalfW
  | stackHalfH
  | stackScale
  | stackScaleY
  | screenW
  | screenH
  | dlStatePtr
  | vpMtx (i : Fin 16)
  | fovY
  | primDepthBias
  | gfxPtr
deriving DecidableEq

/-- The process-wide mutable state of the engine: `s_alloc`, `g_quad_stamp`,
`g_prev_quads` and `g_billboard_frame_count` from the source. -/
structure EngineState where
  alloc : BillboardAllocator
  quad_stamp : Nat
  prev_quads : List (Nat × PrevQuad)
  frame_count : Nat

/-- `RDRAM_SIZE_BYTES` from the source (8 MiB). -/
def RDRAM_SIZE_BYTES : Nat := 0x800000

/-- `kBehindCameraZ` from the source. -/
def kBehindCameraZ : ℚ := -3

/-- `vram_to_phys_u32` from the source: `uint32_t(int32_t(vram) - int32_t(0x80000000))`,
i.e. subtraction of `0x80000000` modulo `2^32`. -/
def vram_to_phys_u32 (vram_addr : Nat) : Nat := (vram_addr + 0x80000000) % (2 ^ 32)

/-- `GfxWriteContext` from the source (the writable-pointer fields are
represented by the physical offset and remaining capacity). -/
structure GfxWriteContext where
  gdl_vram : Nat
  gdl_phys : Nat
  capacity_bytes : Nat
deriving DecidableEq

/-- `try_get_gfx_ptr` from the source: fail on a null stored pointer or one
whose physical offset is outside RDRAM, otherwise return the write context
with the remaining capacity up to the end of RDRAM. -/
def try_get_gfx_ptr (gdl : Nat) : Option GfxWriteContext :=
  if gdl = 0 then none
  else
    let phys := vram_to_phys_u32 gdl
    if phys ≥ RDRAM_SIZE_BYTES then none
    else some ⟨gdl, phys, RDRAM_SIZE_BYTES - phys⟩

/-- `advance_gfx_ptr` from the source: store back the cursor advanced by the
number of bytes written (32-bit wrapping add `ADD32`). -/
def advance_gfx_ptr (wctx : GfxWriteContext) (written : Nat) : Nat :=
  (wctx.gdl_vram + written) % (2 ^ 32)

/-- Clamp helper for `std::clamp` on integers: `v < lo ? lo : hi < v ? hi : v`. -/
def clamp_int (v lo hi : Int) : Int := if v < lo then lo else if hi < v then hi else v

/-- The kinds of external `gEX*` emitter calls the engine makes, in the
vocabulary of `rt64_extended_gbi.h` (a collaborator header that is not part
of this repository's sources). -/
inductive ExCmdKind where
  | enable
  | setRDRAMExtended
  | pushOtherMode
  | pushProjectionMatrix
  | matrixFloat
  | setProjMatrixFloat
  | setViewMatrixFloat
  | matrixGroup
  | vertex
  | popMatrixGroup
  | popProjectionMatrix
  | popOtherMode
deriving DecidableEq

/-- One 8-byte-granular display-list command record appended by the engine:
either a raw command whose two 32-bit words the source writes directly, or a
call to an external `gEX*` emitter.  Modelled from the spec: the emitters'
internal encodings live in `rt64_extended_gbi.h`, outside this repository's
sources; per the repository's own usage convention (documented in its
widescreen hook: a `G_EX_COMMAND2` emitter writes 2 commands at the given
pointer and the caller advances the pointer by 2 itself), each emitter writes
`words` 8-byte command records at the cursor without advancing it, and
`words` is the manual cursor increment the source performs after the call. -/
inductive DlCmd where
  | raw (word0 word1 : Nat)
  | ex (kind : ExCmdKind) (words : Nat) (args : List Nat)
deriving DecidableEq

/-- Number of 8-byte command records a `DlCmd` occupies. -/
def dlCmdWords : DlCmd → Nat
  | .raw _ _ => 1
  | .ex _ w _ => w

/-- Total 8-byte command records of an emitted command list. -/
def dlWords (l : List DlCmd) : Nat := (l.map dlCmdWords).sum

/-- `Rt64VertexExV1` from the source (24 bytes: screen position, flag, depth,
texture coordinates, RGBA color, plus the previous-position fields used by
the renderer's interpolation). -/
structure Rt64VertexExV1 where
  x : Int
  y : Int
  flag : Nat
  z : Int
  s : Int
  t : Int
  r : Nat
  g : Nat
  b : Nat
  a : Nat
  xp : Int
  yp : Int
  pad : Nat
  zp : Int
deriving DecidableEq

/-- The fixed command sequence the emission phase writes (source lines
818-921), in exact order, with the word counts the source advances the
cursor by.  `G_EX` parameters (pool addresses, interpolation-group id) are
recorded as arguments. -/
def emittedCommandList (prim_depth proj_mtx_addr view_mtx_addr verts_addr group_id : Nat) :
    List DlCmd :=
  [ .raw 0xEE000000 ((prim_depth * 2 ^ 16) % (2 ^ 32)),
    .ex .enable 1 [],
    .ex .setRDRAMExtended 1 [1],
    .ex .pushOtherMode 1 [],
    .raw 0xBA130001 0x00080000,
    .ex .pushProjectionMatrix 1 [],
    .ex .matrixFloat 2 [proj_mtx_addr, 0x07],
    .ex .matrixFloat 2 [view_mtx_addr, 0x02],
    .ex .setProjMatrixFloat 1 [proj_mtx_addr],
    .ex .setViewMatrixFloat 1 [view_mtx_addr],
    .ex .matrixGroup 2 [group_id],
    .ex .vertex 2 [verts_addr, 4, 0],
    .raw (0xB1000000 + 0 * 2 ^ 17 + 1 * 2 ^ 9 + 3 * 2) (0 * 2 ^ 17 + 3 * 2 ^ 9 + 2 * 2),
    .raw (0xB1000000 + 0 * 2 ^ 17 + 3 * 2 ^ 9 + 1 * 2) (0 * 2 ^ 17 + 2 * 2 ^ 9 + 3 * 2),
    .raw 0xBD000000 0x00000000,
    .ex .popMatrixGroup 1 [0],
    .ex .popProjectionMatrix 1 [],
    .ex .setProjMatrixFloat 1 [view_mtx_addr],
    .ex .setViewMatrixFloat 1 [view_mtx_addr],
    .ex .setRDRAMExtended 1 [0],
    .ex .popOtherMode 1 [] ]

/-- Result of one engine call: outcome, updated process-wide state, trace,
the ordered memory-image read log, the display-list cursor after the call,
the command records appended to the display list, and the data written into
the scratch pool. -/
structure EngineResult where
  outcome : RewriteOutcome
  st : EngineState
  trace : RewriteTrace
  reads : List ReadTag
  gdl : Nat
  dl_cmds : List DlCmd
  pool_proj : Option (Nat × Mat4)
  pool_view : Option (Nat × Mat4)
  pool_verts : Option (Nat × (Fin 4 → Rt64VertexExV1))

/-- A failure return before anything was written: no display-list commands,
cursor unchanged, no pool writes. -/
def failResult (o : RewriteOutcome) (st : EngineState) (tr : RewriteTrace)
    (reads : List ReadTag) (gdl : Nat) : EngineResult :=
  ⟨o, st, tr, reads, gdl, [], none, none, none⟩

/-- Matrix element accessor `m(r, c) = vp[r * 4 + c]` from the source (always
called with `r < 4`, `c < 4`). -/
def mIdx (vp : Mat4) (r c : Nat) : ℚ :=
  if h : r * 4 + c < 16 then vp ⟨r * 4 + c, h⟩ else 0

end SSSV

namespace SSSV


/-- Values flowing out of the engine's validation prologue (source lines
463-536): argument, screen and display-list-state gates, per-frame allocator
reset, early capacity check, and view-projection cache fill. -/
structure StageGatesOut where
  half_w : Int
  half_h : Int
  scale : Int
  scale_y_raw : Int
  screen_w : Int
  screen_h : Int
  st2 : EngineState
  cache_hit : Bool
  reads3 : List ReadTag
  trace1 : RewriteTrace

/-- Validation prologue of `rewrite_billboard_ortho_quad` (source lines
463-536): reads the stack arguments, checks them (gate `InvalidArgs`), reads
and checks the screen size (`InvalidScreen`), reads the display-list state
pointer (`MissingDlState`), resets the allocator on a frame change, performs
the early pool-capacity check (`AllocFail`), and fills the view-projection
cache on the first call of a frame. -/
def stageGates (cfg : BillboardConfig) (regs : CtxRegs) (mem : MemImage)
    (st0 : EngineState) : EngineResult ⊕ StageGatesOut :=
  let half_w := mem.half_w
  let half_h := mem.half_h
  let scale := mem.scale
  let scale_y_raw := if cfg.dual_scale then mem.scale_y else scale
  let reads0 : List ReadTag :=
    [.stackHalfW, .stackHalfH, .stackScale] ++ (if cfg.dual_scale then [.stackScaleY] else [])
  let trace0 : RewriteTrace :=
    { world_x := regs.world_x, world_y := regs.world_y, world_z := regs.world_z,
      half_w := half_w, half_h := half_h, scale := scale }
  if half_w ≤ 0 ∨ half_h ≤ 0 ∨ scale ≤ 0 ∨ (cfg.dual_scale = true ∧ scale_y_raw ≤ 0) then
    .inl (failResult .InvalidArgs st0 trace0 reads0 mem.gdl)
  else
  let screen_w := mem.screen_w
  let screen_h := mem.screen_h
  let reads1 := reads0 ++ [.screenW, .screenH]
  let trace1 := { trace0 with screen_w := screen_w, screen_h := screen_h }
  if screen_w ≤ 0 ∨ screen_h ≤ 0 then
    .inl (failResult .InvalidScreen st0 trace1 reads1 mem.gdl)
  else
  let reads2 := reads1 ++ [.dlStatePtr]
  if mem.dl_state = 0 then
    .inl (failResult .MissingDlState st0 trace1 reads2 mem.gdl)
  else
  -- Reset the extended-RDRAM allocator on a new frame (dl_state change);
  -- g_billboard_frame_count increments alongside (source lines 502-508).
  let frame_changed := st0.alloc.dl_state ≠ mem.dl_state
  let alloc1 := detect_new_frame st0.alloc mem.dl_state
  let st1 : EngineState := { st0 with
    alloc := alloc1
    frame_count := if frame_changed then st0.frame_count + 1 else st0.frame_count }
  -- Matrix-cache hit test (source lines 511-513).
  let cache_hit := alloc1.matrices_cached &&
    (alloc1.screen_w == screen_w) && (alloc1.screen_h == screen_h)
  -- Early capacity check (source lines 516-526).
  let kNeededBytes : Int := if cache_hit then 96 else 2 * 64 + 96
  let kNeededSlots := Int.tdiv (kNeededBytes + (BILLBOARD_SLOT_BYTES - 1)) BILLBOARD_SLOT_BYTES
  if alloc1.used_slots + kNeededSlots > BILLBOARD_POOL_SLOTS then
    .inl (failResult .AllocFail st1 trace1 reads2 mem.gdl)
  else
  -- View-projection matrix cache fill, cold only (source lines 530-536).
  let alloc2 := if alloc1.vp_cached then alloc1
    else { alloc1 with vp_mtx := mem.vp, vp_cached := true }
  let st2 : EngineState := { st1 with alloc := alloc2 }
  let reads3 := reads2 ++
    (if alloc1.vp_cached then [] else List.ofFn (fun i : Fin 16 => ReadTag.vpMtx i))
  .inr ⟨half_w, half_h, scale, scale_y_raw, screen_w, screen_h, st2, cache_hit, reads3, trace1⟩

/-- Values flowing out of the engine's projection phase (source lines
538-624). -/
structure StageProjectOut where
  cam_z : ℚ
  clip_w : ℚ
  xl : ℚ
  yl : ℚ
  xh : ℚ
  yh : ℚ
  reads4 : List ReadTag
  trace5 : RewriteTrace

/-- Projection phase of `rewrite_billboard_ortho_quad` (source lines
538-624): camera-space depth gate (`BehindCamera`), clip-width gate
(`InvalidClipW`), screen-center projection, FOV gate (`InvalidFov`), sprite
scale gate (`InvalidSpriteScale`), rectangle construction with the optional
offset clamp and horizontal screen wrap, and the `Offscreen` gate. -/
def stageProject (cfg : BillboardConfig) (regs : CtxRegs) (mem : MemImage)
    (a : StageGatesOut) : EngineResult ⊕ StageProjectOut :=
  let vp := a.st2.alloc.vp_mtx
  -- World coords are 16.16 fixed-point (source lines 543-545).
  let x : ℚ := (regs.world_x : ℚ) / 65536
  let y : ℚ := (regs.world_y : ℚ) / 65536
  let z : ℚ := (regs.world_z : ℚ) / 65536
  let cam_z := mIdx vp 2 3 + mIdx vp 2 2 * z + mIdx vp 2 1 * y + mIdx vp 2 0 * x
  let trace2 := { a.trace1 with cam_z := cam_z }
  if ¬(cam_z ≤ kBehindCameraZ) then
    .inl (failResult .BehindCamera a.st2 trace2 a.reads3 mem.gdl)
  else
  let clip_w := (mIdx vp 3 2 * cam_z + mIdx vp 3 3) / (-cam_z)
  let trace3 := { trace2 with clip_w := clip_w }
  if ¬(clip_w > 0) then
    .inl (failResult .InvalidClipW a.st2 trace3 a.reads3 mem.gdl)
  else
  let proj_x := mIdx vp 0 3 + mIdx vp 0 2 * z + mIdx vp 0 1 * y + mIdx vp 0 0 * x
  let proj_y := mIdx vp 1 3 + mIdx vp 1 2 * z + mIdx vp 1 1 * y + mIdx vp 1 0 * x
  -- Screen coordinates are in a 4x scaled space (source lines 568-569).
  let center_x := (mIdx vp 3 0 * proj_x) / cam_z + (a.screen_w : ℚ) * 2
  let center_y := (mIdx vp 3 1 * proj_y) / cam_z + (a.screen_h : ℚ) * 2
  let reads4 := a.reads3 ++ [.fovY]
  if mem.fov_finite = false ∨ |mem.fov_y| < 1/10000 then
    .inl (failResult .InvalidFov a.st2 trace3 reads4 mem.gdl)
  else
  -- Sprite scaling (source lines 578-586).
  let scaled_x := ((a.scale : ℚ) * 33) / mem.fov_y
  let scaled_y := ((a.scale_y_raw : ℚ) * 33) / mem.fov_y
  let sprite_scale_x :=
    clamp_q ((scaled_x * 32) / (-cam_z)) cfg.scale_clamp_min cfg.scale_clamp_max
  let sprite_scale_y :=
    clamp_q ((scaled_y * 32) / (-cam_z)) cfg.scale_clamp_min cfg.scale_clamp_max
  let trace4 := { trace3 with sprite_scale := sprite_scale_x }
  if ¬(sprite_scale_x > 0) ∨ ¬(sprite_scale_y > 0) then
    .inl (failResult .InvalidSpriteScale a.st2 trace4 reads4 mem.gdl)
  else
  -- Geometry may use a modified half_h (source line 589).
  let geom_hh := if cfg.geom_half_h ≠ 0 then cfg.geom_half_h else a.half_h
  let x_offset0 := ((a.half_w : ℚ) * sprite_scale_x) / 128
  let y_offset0 := ((geom_hh : ℚ) * sprite_scale_y) / 128
  -- Offset clamping (source lines 595-599).
  let x_offset := if cfg.offset_clamp > 0
    then min_q x_offset0 ((cfg.offset_clamp : ℚ) * 2) else x_offset0
  let y_offset := if cfg.offset_clamp > 0
    then min_q y_offset0 ((cfg.offset_clamp : ℚ) * 2) else y_offset0
  -- Screen wrapping (source lines 602-607): the loop
  -- `while (adj >= sw4) adj -= sw4; while (adj < 0) adj += sw4`
  -- computes, for sw4 > 0 (guaranteed by the screen gate), the remainder of
  -- center_x in [0, sw4).
  let sw4 := (a.screen_w : ℚ) * 4
  let adj_center_x := if cfg.screen_wrap then center_x - sw4 * (⌊center_x / sw4⌋ : ℚ)
    else center_x
  let xl := adj_center_x - x_offset
  let yl := center_y - y_offset * cfg.y_top_mul
  let xh := adj_center_x + x_offset
  let yh := if cfg.y_bottom_fixed > 0 then center_y + cfg.y_bottom_fixed
    else center_y + y_offset
  let trace5 := { trace4 with xl := xl, yl := yl, xh := xh, yh := yh }
  let screen_max_x := (a.screen_w : ℚ) * 4
  let screen_max_y := (a.screen_h : ℚ) * 4
  if ¬(xl < xh ∧ yl < yh ∧ xl < screen_max_x ∧ yl < screen_max_y ∧ xh > 0 ∧ yh > 0) then
    .inl (failResult .Offscreen a.st2 trace5 reads4 mem.gdl)
  else
    .inr ⟨cam_z, clip_w, xl, yl, xh, yh, reads4, trace5⟩

/-- Values flowing out of the engine's allocation-and-synthesis phase
(source lines 626-776). -/
structure StageCommitOut where
  st3 : EngineState
  trace6 : RewriteTrace
  reads5 : List ReadTag
  proj_mtx_addr : Nat
  view_mtx_addr : Nat
  verts_addr : Nat
  pool_proj : Option (Nat × Mat4)
  pool_view : Option (Nat × Mat4)
  verts : Fin 4 → Rt64VertexExV1
  prim_depth : Nat
  group_id : Nat

/-- Allocation-and-synthesis phase of `rewrite_billboard_ortho_quad` (source
lines 626-776): scratch allocation (gate `AllocFail`; on a cache miss the
ortho and identity matrices are written into the pool and the matrix cache
is populated), centered corner computation, coordinate quantization and
identity hash, interpolation-cache consult and update, vertex synthesis, and
prim-depth computation. -/
def stageCommit (cfg : BillboardConfig) (regs : CtxRegs) (mem : MemImage)
    (a : StageGatesOut) (b : StageProjectOut) : EngineResult ⊕ StageCommitOut :=
  let alloc2 := a.st2.alloc
  let allocStep : Option (Nat × Nat × Nat × BillboardAllocator ×
      Option (Nat × Mat4) × Option (Nat × Mat4)) :=
    if a.cache_hit then
      match allocate_billboard_data alloc2 96 with
      | (none, _) => none
      | (some v, al) => some (alloc2.proj_mtx_addr, alloc2.view_mtx_addr, v, al, none, none)
    else
      match allocate_billboard_data alloc2 (64 * 2 + 96) with
      | (none, _) => none
      | (some p, al) =>
          let view_mtx_addr := (p + 64) % (2 ^ 32)
          let verts_addr := (view_mtx_addr + 64) % (2 ^ 32)
          let proj_mtx := write_ortho (-(a.screen_w : ℚ) * 2) ((a.screen_w : ℚ) * 2)
            ((a.screen_h : ℚ) * 2) (-(a.screen_h : ℚ) * 2) (-1) 1
          let al2 := { al with
            proj_mtx_addr := p
            view_mtx_addr := view_mtx_addr
            screen_w := a.screen_w
            screen_h := a.screen_h
            matrices_cached := true }
          some (p, view_mtx_addr, verts_addr, al2,
            some (p, proj_mtx), some (view_mtx_addr, write_identity))
  match allocStep with
  | none => .inl (failResult .AllocFail a.st2 b.trace5 b.reads4 mem.gdl)
  | some (proj_mtx_addr, view_mtx_addr, verts_addr, alloc3, pool_proj, pool_view) =>
    -- Centered coordinates (source lines 677-693).
    let centered_xl := b.xl - (a.screen_w : ℚ) * 2
    let centered_yl := b.yl - (a.screen_h : ℚ) * 2
    let centered_xh := b.xh - (a.screen_w : ℚ) * 2
    let centered_yh := b.yh - (a.screen_h : ℚ) * 2
    let cur_x : Fin 4 → Int :=
      ![clamp_i16 centered_xl, clamp_i16 centered_xh, clamp_i16 centered_xl,
        clamp_i16 centered_xh]
    let cur_y : Fin 4 → Int :=
      ![clamp_i16 centered_yl, clamp_i16 centered_yl, clamp_i16 centered_yh,
        clamp_i16 centered_yh]
    -- Quantized world coords and identity hash (source lines 698-706).
    let q_x := asr regs.world_x cfg.hash_coord_shift
    let q_y := asr regs.world_y cfg.hash_coord_shift
    let q_z := asr regs.world_z cfg.hash_coord_shift
    let hash_scale := if cfg.hash_includes_scale then a.scale else 0
    let group_id := billboard_group_id q_x q_y q_z a.half_w a.half_h hash_scale cfg.hash_salt
    let trace6 := { b.trace5 with group_id := group_id }
    -- Stamp increment and interpolation-cache consult/update (lines 708-736).
    let stamp1 := (a.st2.quad_stamp + 1) % (2 ^ 64)
    let pq := prevQuadLookupUpdate a.st2.prev_quads stamp1 group_id cur_x cur_y q_x q_y q_z
    let st3 : EngineState := { a.st2 with
      alloc := alloc3
      quad_stamp := stamp1
      prev_quads := pq.2 }
    -- Vertex synthesis (source lines 744-772).
    let s_max := clamp_int ((max 0 (a.half_w - 1)) * 64) (-32768) 32767
    let t_max := clamp_int ((max 0 (a.half_h - 1)) * 64) (-32768) 32767
    let sv : Fin 4 → Int := ![0, s_max, 0, s_max]
    let tv : Fin 4 → Int := ![0, 0, t_max, t_max]
    let verts : Fin 4 → Rt64VertexExV1 := fun i =>
      { x := cur_x i, y := cur_y i, flag := 0, z := 0, s := sv i, t := tv i,
        r := 0xFF, g := 0xFF, b := 0xFF, a := 0xFF, xp := pq.1.1 i, yp := pq.1.2 i,
        pad := 0, zp := 0 }
    -- Prim depth (source lines 774-776).
    let reads5 := b.reads4 ++ [.primDepthBias]
    let depth_raw := lround_q (b.clip_w * 1023 * 32 + 32736) - mem.prim_depth_bias
    let prim_depth : Nat := (depth_raw % (2 ^ 16)).toNat
    .inr ⟨st3, trace6, reads5, proj_mtx_addr, view_mtx_addr, verts_addr, pool_proj,
      pool_view, verts, prim_depth, group_id⟩

/-- Emission phase of `rewrite_billboard_ortho_quad` (source lines 778-926):
display-list pointer acquisition (`GfxPtrFail`), capacity check against the
source's `kEmittedBytes = 34 * 8` constant (`GfxCapacityFail`), then the
all-at-once write of the fixed command sequence and the cursor advance by
the bytes written. -/
def stageEmit (mem : MemImage) (c : StageCommitOut) : EngineResult :=
  let reads6 := c.reads5 ++ [.gfxPtr]
  match try_get_gfx_ptr mem.gdl with
  | none =>
      ⟨.GfxPtrFail, c.st3, c.trace6, reads6, mem.gdl, [], c.pool_proj, c.pool_view,
        some (c.verts_addr, c.verts)⟩
  | some wctx =>
      let kEmittedBytes : Nat := 34 * 8
      if wctx.capacity_bytes < kEmittedBytes then
        ⟨.GfxCapacityFail, c.st3, c.trace6, reads6, mem.gdl, [], c.pool_proj, c.pool_view,
          some (c.verts_addr, c.verts)⟩
      else
        let cmds := emittedCommandList c.prim_depth c.proj_mtx_addr c.view_mtx_addr
          c.verts_addr c.group_id
        ⟨.Emitted, c.st3, c.trace6, reads6, advance_gfx_ptr wctx (8 * dlWords cmds), cmds,
          c.pool_proj, c.pool_view, some (c.verts_addr, c.verts)⟩

/-- `rewrite_billboard_ortho_quad` from the source: the ordered gate sequence,
the per-frame allocator reset, the matrix/view-projection caches, the
identity-cache consult/update, and the all-or-nothing display-list emission,
as the composition of the four phases above.  Diagnostic-only code of the
source (the one-time `reserve`, the stats counters and the `printf` logging)
has no effect on the engine's state or outcome and is not modelled. -/
def rewrite_billboard_ortho_quad (cfg : BillboardConfig) (regs : CtxRegs)
    (mem : MemImage) (st0 : EngineState) : EngineResult :=
  match stageGates cfg regs mem st0 with
  | .inl r => r
  | .inr a =>
    match stageProject cfg regs mem a with
    | .inl r => r
    | .inr b =>
      match stageCommit cfg regs mem a b with
      | .inl r => r
      | .inr c => stageEmit mem c

end SSSV

namespace SSSV

/-! ### Helper lemmas shared by several proofs -/

theorem tdiv_111_16 : Int.tdiv 111 16 = 6 := by decide

theorem tdiv_239_16 : Int.tdiv 239 16 = 14 := by decide

theorem allocate_billboard_data_some (s : BillboardAllocator) (bb : Int) (v : Nat)
    (al : BillboardAllocator) (h : allocate_billboard_data s bb = (some v, al)) :
    al = { s with used_slots :=
      s.used_slots + Int.tdiv (bb + (BILLBOARD_SLOT_BYTES - 1)) BILLBOARD_SLOT_BYTES } ∧
    v = (BILLBOARD_POOL_VRAM + (u32 s.used_slots * 16) % (2 ^ 32)) % (2 ^ 32) := by
  simp only [allocate_billboard_data] at h
  split at h
  · simp at h
  · obtain ⟨h1, h2⟩ := Prod.mk.injEq .. ▸ h
    exact ⟨h2.symm, (Option.some.injEq .. ▸ h1).symm⟩

theorem allocate_billboard_data_none (s : BillboardAllocator) (bb : Int)
    (h : (allocate_billboard_data s bb).1 = none) :
    (allocate_billboard_data s bb).2 = s ∧
    BILLBOARD_POOL_SLOTS <
      s.used_slots + Int.tdiv (bb + (BILLBOARD_SLOT_BYTES - 1)) BILLBOARD_SLOT_BYTES := by
  simp only [allocate_billboard_data] at h ⊢
  split at h
  · next hc => exact ⟨by simp only [if_pos hc], hc⟩
  · simp at h

theorem try_get_gfx_ptr_some (g : Nat) (w : GfxWriteContext)
    (h : try_get_gfx_ptr g = some w) : w.gdl_vram = g := by
  simp only [try_get_gfx_ptr] at h
  split at h
  · simp at h
  · split at h
    · simp at h
    · obtain rfl := (Option.some.injEq .. ▸ h).symm
      rfl

theorem dlWords_emittedCommandList (p a b c g : Nat) :
    dlWords (emittedCommandList p a b c g) = 25 := by
  simp [dlWords, emittedCommandList, dlCmdWords]

/-! ### C8: the identity hash is never zero -/

/-- C8: for all inputs (any quantized coordinates, half extents,
scale-or-zero and salt), `billboard_group_id` returns a non-zero value below
`2^32`; the all-zero mixing result is remapped to the sentinel 1. -/
theorem billboard_group_id_ne_zero (x y z w h s : Int) (salt : Nat) :
    billboard_group_id x y z w h s salt ≠ 0 ∧ billboard_group_id x y z w h s salt < 2 ^ 32 := by
  simp only [billboard_group_id]
  split
  · exact ⟨one_ne_zero, by norm_num⟩
  · next hne => exact ⟨hne, Nat.mod_lt _ (by norm_num)⟩

/-! ### C2: identity stability under quantization -/

/-- C2 (amended): two world positions whose coordinates agree after the
arithmetic right shift by `shift` (the same quantization cell), with
identical half extents, scale and salt, produce the same identity hash. -/
theorem compute_identity_stable (shift : Nat) (x1 y1 z1 x2 y2 z2 w h s : Int) (salt : Nat)
    (hx : asr x1 shift = asr x2 shift) (hy : asr y1 shift = asr y2 shift)
    (hz : asr z1 shift = asr z2 shift) :
    compute_identity shift x1 y1 z1 w h s salt = compute_identity shift x2 y2 z2 w h s salt := by
  simp only [compute_identity, hx, hy, hz]

/-- C2 counterexample: the claim as stated is false — the positions
`(1, 0, 0)` and `(2, 0, 0)` differ by less than `2^1` in each axis, yet with
shift 1 they quantize to different cells and yield different hashes. -/
theorem compute_identity_jitter_counterexample :
    |(1 : Int) - 2| < 2 ^ 1 ∧ |(0 : Int) - 0| < 2 ^ 1 ∧
    compute_identity 1 1 0 0 10 10 1 0 ≠ compute_identity 1 2 0 0 10 10 1 0 := by
  refine ⟨by decide, by decide, ?_⟩
  decide

/-- Witness for C2 (amended): `x = 2` and `x = 3` lie in the same
quantization cell for shift 1 and hash identically. -/
theorem compute_identity_stable_witness :
    compute_identity 1 2 0 0 10 10 1 0 = compute_identity 1 3 0 0 10 10 1 0 :=
  compute_identity_stable 1 2 0 0 3 0 0 10 10 1 0 (by decide) (by decide) (by decide)

end SSSV

namespace SSSV

/-! ### C4: allocator monotonicity and failure atomicity -/

theorem alloc_step_bounds (s : BillboardAllocator) (bytes : Int) (hb : 0 ≤ bytes)
    (h0 : 0 ≤ s.used_slots) (hcap : s.used_slots ≤ BILLBOARD_POOL_SLOTS) :
    0 ≤ (allocate_billboard_data s bytes).2.used_slots ∧
    s.used_slots ≤ (allocate_billboard_data s bytes).2.used_slots ∧
    (allocate_billboard_data s bytes).2.used_slots ≤ BILLBOARD_POOL_SLOTS := by
  simp only [BILLBOARD_POOL_SLOTS] at hcap ⊢
  simp only [allocate_billboard_data, BILLBOARD_POOL_SLOTS, BILLBOARD_SLOT_BYTES]
  have hslots : 0 ≤ Int.tdiv (bytes + (16 - 1)) 16 :=
    Int.tdiv_nonneg (by omega) (by norm_num)
  split
  · exact ⟨h0, le_refl _, hcap⟩
  · next hc =>
    simp only [not_lt] at hc
    dsimp only
    omega

theorem allocRun_bounds (reqs : List Int) (s : BillboardAllocator)
    (hreqs : ∀ b ∈ reqs, 0 ≤ b) (h0 : 0 ≤ s.used_slots)
    (hcap : s.used_slots ≤ BILLBOARD_POOL_SLOTS) :
    0 ≤ (allocRun s reqs).used_slots ∧ s.used_slots ≤ (allocRun s reqs).used_slots ∧
    (allocRun s reqs).used_slots ≤ BILLBOARD_POOL_SLOTS := by
  induction reqs generalizing s with
  | nil => exact ⟨h0, le_refl _, hcap⟩
  | cons b rest ih =>
    have hb : 0 ≤ b := hreqs b (List.mem_cons_self b rest)
    have hstep := alloc_step_bounds s b hb h0 hcap
    have hrest := ih (allocate_billboard_data s b).2
      (fun q hq => hreqs q (List.mem_cons_of_mem b hq)) hstep.1 hstep.2.2
    exact ⟨hrest.1, le_trans hstep.2.1 hrest.2.1, hrest.2.2⟩

/-- C4: within one frame token, `used_slots` is non-decreasing along any
sequence of (nonnegative-size) allocation requests and never exceeds the
pool capacity of 8192 slots; a request whose slot-rounded size exceeds the
remaining capacity returns failure and leaves the allocator unchanged; a
successful request advances `used_slots` by the slot-rounded size and
returns the pool base address plus the prior offset. -/
theorem allocator_invariants (s : BillboardAllocator) (reqs : List Int) (bytes : Int)
    (hreqs : ∀ b ∈ reqs, 0 ≤ b) (_hb : 0 ≤ bytes)
    (h0 : 0 ≤ s.used_slots) (hcap : s.used_slots ≤ BILLBOARD_POOL_SLOTS) :
    (0 ≤ (allocRun s reqs).used_slots ∧ s.used_slots ≤ (allocRun s reqs).used_slots ∧
      (allocRun s reqs).used_slots ≤ BILLBOARD_POOL_SLOTS)
    ∧ ((allocate_billboard_data s bytes).1 = none ↔
        BILLBOARD_POOL_SLOTS <
          s.used_slots + Int.tdiv (bytes + (BILLBOARD_SLOT_BYTES - 1)) BILLBOARD_SLOT_BYTES)
    ∧ ((allocate_billboard_data s bytes).1 = none → (allocate_billboard_data s bytes).2 = s)
    ∧ (∀ addr, (allocate_billboard_data s bytes).1 = some addr →
        (allocate_billboard_data s bytes).2.used_slots =
          s.used_slots + Int.tdiv (bytes + (BILLBOARD_SLOT_BYTES - 1)) BILLBOARD_SLOT_BYTES
        ∧ addr = BILLBOARD_POOL_VRAM + 16 * s.used_slots.toNat) := by
  refine ⟨allocRun_bounds reqs s hreqs h0 hcap, ?_, ?_, ?_⟩
  · constructor
    · intro h
      exact ((allocate_billboard_data_none s bytes) h).2
    · intro h
      simp only [allocate_billboard_data]
      rw [if_pos h]
  · intro h
    exact ((allocate_billboard_data_none s bytes) h).1
  · intro addr h
    have hpair : allocate_billboard_data s bytes =
        (some addr, (allocate_billboard_data s bytes).2) := by
      rw [← h]
    obtain ⟨hal, haddr⟩ := allocate_billboard_data_some s bytes addr _ hpair
    refine ⟨by rw [hal], ?_⟩
    -- With 0 ≤ used_slots ≤ 8192 the unsigned arithmetic does not wrap.
    have hcap8 : s.used_slots ≤ 8192 := by
      simpa only [BILLBOARD_POOL_SLOTS] using hcap
    have hlt32 : s.used_slots < (2 : Int) ^ 32 := by
      have : (2 : Int) ^ 32 = 4294967296 := by norm_num
      omega
    have h32 : u32 s.used_slots = s.used_slots.toNat := by
      simp only [u32]
      rw [Int.emod_eq_of_lt h0 hlt32]
    have ht : s.used_slots.toNat ≤ 8192 := by omega
    have hp32 : (2 : Nat) ^ 32 = 4294967296 := by norm_num
    rw [haddr, h32]
    have e1 : s.used_slots.toNat * 16 % 2 ^ 32 = s.used_slots.toNat * 16 :=
      Nat.mod_eq_of_lt (by simp only [hp32]; omega)
    rw [e1]
    have e2 : (BILLBOARD_POOL_VRAM + s.used_slots.toNat * 16) % 2 ^ 32 =
        BILLBOARD_POOL_VRAM + s.used_slots.toNat * 16 :=
      Nat.mod_eq_of_lt (by simp only [hp32, BILLBOARD_POOL_VRAM]; omega)
    rw [e2]
    omega

/-- Witness for C4 at a fresh allocator and the engine's own request sizes. -/
theorem allocator_invariants_witness :
    ((0 : Int) ≤ (allocRun ⟨0, 0, 0, 0, 0, 0, false, fun _ => 0, false⟩ [96, 224]).used_slots ∧
      (0 : Int) ≤ (allocRun ⟨0, 0, 0, 0, 0, 0, false, fun _ => 0, false⟩ [96, 224]).used_slots ∧
      (allocRun ⟨0, 0, 0, 0, 0, 0, false, fun _ => 0, false⟩ [96, 224]).used_slots ≤
        BILLBOARD_POOL_SLOTS)
    ∧ ((allocate_billboard_data ⟨0, 0, 0, 0, 0, 0, false, fun _ => 0, false⟩ 96).2.used_slots =
          0 + Int.tdiv (96 + (BILLBOARD_SLOT_BYTES - 1)) BILLBOARD_SLOT_BYTES
        ∧ 0x80900000 = BILLBOARD_POOL_VRAM + 16 * (0 : Int).toNat) := by
  have h := allocator_invariants ⟨0, 0, 0, 0, 0, 0, false, fun _ => 0, false⟩ [96, 224] 96
    (by decide) (by decide) (by decide) (by decide)
  exact ⟨⟨h.1.1, h.1.2.1, h.1.2.2⟩, h.2.2.2 0x80900000 (by decide)⟩

/-! ### C5: frame reset idempotence -/

/-- C5: running the frame-change detection twice with the same token leaves
the allocator state after the second run identical to the state after the
first; a changed token resets `used_slots` to 0, clears both the matrix
cache flag and the view-projection cache flag, and stores the new token. -/
theorem detect_new_frame_spec (a : BillboardAllocator) (tok : Nat) :
    detect_new_frame (detect_new_frame a tok) tok = detect_new_frame a tok
    ∧ (a.dl_state ≠ tok →
        (detect_new_frame a tok).used_slots = 0 ∧
        (detect_new_frame a tok).matrices_cached = false ∧
        (detect_new_frame a tok).vp_cached = false ∧
        (detect_new_frame a tok).dl_state = tok) := by
  by_cases h : a.dl_state = tok <;> simp [detect_new_frame, h]

/-- Witness for C5 at a concrete allocator state with a changed token. -/
theorem detect_new_frame_spec_witness :
    (detect_new_frame (detect_new_frame ⟨5, 77, 0, 0, 0, 0, true, fun _ => 0, true⟩ 9) 9 =
      detect_new_frame ⟨5, 77, 0, 0, 0, 0, true, fun _ => 0, true⟩ 9)
    ∧ ((detect_new_frame ⟨5, 77, 0, 0, 0, 0, true, fun _ => 0, true⟩ 9).used_slots = 0 ∧
        (detect_new_frame ⟨5, 77, 0, 0, 0, 0, true, fun _ => 0, true⟩ 9).matrices_cached = false ∧
        (detect_new_frame ⟨5, 77, 0, 0, 0, 0, true, fun _ => 0, true⟩ 9).vp_cached = false ∧
        (detect_new_frame ⟨5, 77, 0, 0, 0, 0, true, fun _ => 0, true⟩ 9).dl_state = 9) :=
  ⟨(detect_new_frame_spec ⟨5, 77, 0, 0, 0, 0, true, fun _ => 0, true⟩ 9).1,
    (detect_new_frame_spec ⟨5, 77, 0, 0, 0, 0, true, fun _ => 0, true⟩ 9).2 (by decide)⟩

end SSSV

namespace SSSV

/-! ### C6: identity-cache lookup and unconditional update -/

/-- C6: for a lookup with hash `gid`, current corners and current quantized
position, the stored corners are returned exactly when an entry exists whose
signature matches the current quantized position and whose staleness
(current sequence number minus stored, `uint64_t`) is at most 300; otherwise
the current corners are returned; and in every case the entry for `gid` is
afterward overwritten with the current corners, signature and sequence
number. -/
theorem prevQuad_lookup_update_spec (m : List (Nat × PrevQuad)) (stamp gid : Nat)
    (cx cy : Fin 4 → Int) (qx qy qz : Int) :
    (∀ pq, m.lookup gid = some pq →
      ((u64sub stamp pq.stamp ≤ 300 ∧ pq.sig_x = qx ∧ pq.sig_y = qy ∧ pq.sig_z = qz) →
        (prevQuadLookupUpdate m stamp gid cx cy qx qy qz).1 = (pq.x, pq.y))
      ∧ (¬(u64sub stamp pq.stamp ≤ 300 ∧ pq.sig_x = qx ∧ pq.sig_y = qy ∧ pq.sig_z = qz) →
        (prevQuadLookupUpdate m stamp gid cx cy qx qy qz).1 = (cx, cy)))
    ∧ (m.lookup gid = none →
        (prevQuadLookupUpdate m stamp gid cx cy qx qy qz).1 = (cx, cy))
    ∧ (prevQuadLookupUpdate m stamp gid cx cy qx qy qz).2.lookup gid =
        some ⟨cx, cy, qx, qy, qz, stamp⟩ := by
  refine ⟨?_, ?_, ?_⟩
  · intro pq hpq
    constructor
    · intro hcond
      simp only [prevQuadLookupUpdate, hpq, if_pos hcond]
    · intro hcond
      simp only [prevQuadLookupUpdate, hpq, if_neg hcond]
  · intro hnone
    simp only [prevQuadLookupUpdate, hnone]
  · simp only [prevQuadLookupUpdate, List.lookup]
    rw [beq_self_eq_true]

/-- Witness for C6: a stale entry (stored stamp 1, current stamp 302,
staleness 301 > 300) is ignored — the lookup returns the current corners —
and the entry is refreshed. -/
theorem prevQuad_lookup_update_spec_witness :
    (prevQuadLookupUpdate [(7, ⟨fun _ => 1, fun _ => 2, 0, 0, 0, 1⟩)] 302 7
        (fun _ => 5) (fun _ => 6) 0 0 0).1 = (fun _ => 5, fun _ => 6)
    ∧ (prevQuadLookupUpdate [(7, ⟨fun _ => 1, fun _ => 2, 0, 0, 0, 1⟩)] 302 7
        (fun _ => 5) (fun _ => 6) 0 0 0).2.lookup 7 =
      some ⟨fun _ => 5, fun _ => 6, 0, 0, 0, 302⟩ :=
  ⟨((prevQuad_lookup_update_spec [(7, ⟨fun _ => 1, fun _ => 2, 0, 0, 0, 1⟩)] 302 7
      (fun _ => 5) (fun _ => 6) 0 0 0).1 ⟨fun _ => 1, fun _ => 2, 0, 0, 0, 1⟩ rfl).2
      (by decide),
    (prevQuad_lookup_update_spec [(7, ⟨fun _ => 1, fun _ => 2, 0, 0, 0, 1⟩)] 302 7
      (fun _ => 5) (fun _ => 6) 0 0 0).2.2⟩

/-! ### C7: orthographic matrix round-trip -/

/-- C7: for `left < right`, `bottom < top`, `near ≠ far`, the matrix built by
`write_ortho` maps `(left, bottom, -near)` to `(-1, -1, -1, 1)` and
`(right, top, -far)` to `(1, 1, 1, 1)` in its column convention (exactly, in
the rational model of float arithmetic). -/
theorem write_ortho_round_trip (l r b t n f : ℚ) (h1 : l < r) (h2 : b < t) (h3 : n ≠ f) :
    applyMat4 (write_ortho l r b t n f) ![l, b, -n, 1] = ![-1, -1, -1, 1] ∧
    applyMat4 (write_ortho l r b t n f) ![r, t, -f, 1] = ![1, 1, 1, 1] := by
  have hrl : r - l ≠ 0 := sub_ne_zero.mpr (ne_of_gt h1)
  have htb : t - b ≠ 0 := sub_ne_zero.mpr (ne_of_gt h2)
  have hfn : f - n ≠ 0 := sub_ne_zero.mpr (Ne.symm h3)
  constructor <;> funext i <;> fin_cases i <;>
    simp only [applyMat4, write_ortho, write_identity, Matrix.cons_val_zero,
      Matrix.cons_val_one, Matrix.head_cons, Matrix.cons_val_two, Matrix.tail_cons,
      Matrix.cons_val_three] <;>
    norm_num <;> field_simp <;> ring

end SSSV

namespace SSSV

/-- Witness for C7 at `left = 0, right = 2, bottom = 0, top = 2, near = 1,
far = 3`. -/
theorem write_ortho_round_trip_witness :
    applyMat4 (write_ortho 0 2 0 2 1 3) ![0, 0, -1, 1] = ![-1, -1, -1, 1] ∧
    applyMat4 (write_ortho 0 2 0 2 1 3) ![2, 2, -3, 1] = ![1, 1, 1, 1] :=
  write_ortho_round_trip 0 2 0 2 1 3 (by norm_num) (by norm_num) (by norm_num)

end SSSV

namespace SSSV

/-! ### Stage lemmas for the engine claims -/

theorem stageGates_inl (cfg : BillboardConfig) (regs : CtxRegs) (mem : MemImage)
    (st0 : EngineState) (r : EngineResult) (h : stageGates cfg regs mem st0 = .inl r) :
    r.dl_cmds = [] ∧ r.gdl = mem.gdl ∧
    (r.outcome = .InvalidArgs ∨ r.outcome = .InvalidScreen ∨
      r.outcome = .MissingDlState ∨ r.outcome = .AllocFail) := by
  simp only [stageGates] at h
  split_ifs at h <;> try exact Sum.noConfusion h
  all_goals
    injection h with h'
    subst h'
    exact ⟨rfl, rfl, by simp [failResult]⟩

theorem stageGates_inr (cfg : BillboardConfig) (regs : CtxRegs) (mem : MemImage)
    (st0 : EngineState) (a : StageGatesOut) (h : stageGates cfg regs mem st0 = .inr a) :
    a.st2.alloc.used_slots = (detect_new_frame st0.alloc mem.dl_state).used_slots ∧
    a.st2.alloc.matrices_cached = (detect_new_frame st0.alloc mem.dl_state).matrices_cached ∧
    a.screen_w = mem.screen_w ∧ a.screen_h = mem.screen_h ∧
    a.cache_hit = ((detect_new_frame st0.alloc mem.dl_state).matrices_cached &&
      ((detect_new_frame st0.alloc mem.dl_state).screen_w == mem.screen_w) &&
      ((detect_new_frame st0.alloc mem.dl_state).screen_h == mem.screen_h)) := by
  simp only [stageGates] at h
  split_ifs at h <;> try exact Sum.noConfusion h
  all_goals
    injection h with h'
    subst h'
    by_cases hv : (detect_new_frame st0.alloc mem.dl_state).vp_cached = true <;> simp [hv]

set_option maxHeartbeats 2000000 in
theorem stageProject_inl (cfg : BillboardConfig) (regs : CtxRegs) (mem : MemImage)
    (a : StageGatesOut) (r : EngineResult) (h : stageProject cfg regs mem a = .inl r) :
    r.dl_cmds = [] ∧ r.gdl = mem.gdl ∧
    ((r.outcome = .BehindCamera ∧ ¬(r.trace.cam_z ≤ -3)) ∨
      ((r.outcome = .InvalidClipW ∨ r.outcome = .InvalidFov ∨
        r.outcome = .InvalidSpriteScale ∨ r.outcome = .Offscreen) ∧ r.trace.cam_z ≤ -3)) := by
  simp only [stageProject, kBehindCameraZ] at h
  split_ifs at h <;> try exact Sum.noConfusion h
  all_goals
    injection h with h'
    subst h'
    refine ⟨rfl, rfl, ?_⟩
    simp only [failResult]
    simp_all

set_option maxHeartbeats 2000000 in
theorem stageProject_inr (cfg : BillboardConfig) (regs : CtxRegs) (mem : MemImage)
    (a : StageGatesOut) (b : StageProjectOut) (h : stageProject cfg regs mem a = .inr b) :
    b.trace5.cam_z ≤ -3 := by
  simp only [stageProject, kBehindCameraZ] at h
  split_ifs at h <;> try exact Sum.noConfusion h
  all_goals
    injection h with h'
    subst h'
    simp_all

end SSSV

namespace SSSV

theorem stageCommit_inl (cfg : BillboardConfig) (regs : CtxRegs) (mem : MemImage)
    (a : StageGatesOut) (b : StageProjectOut) (r : EngineResult)
    (h : stageCommit cfg regs mem a b = .inl r) :
    r.dl_cmds = [] ∧ r.gdl = mem.gdl ∧ r.outcome = .AllocFail ∧ r.trace = b.trace5 := by
  simp only [stageCommit] at h
  split at h
  · injection h with h'
    subst h'
    exact ⟨rfl, rfl, rfl, rfl⟩
  · exact Sum.noConfusion h

theorem stageCommit_inr (cfg : BillboardConfig) (regs : CtxRegs) (mem : MemImage)
    (a : StageGatesOut) (b : StageProjectOut) (c : StageCommitOut)
    (h : stageCommit cfg regs mem a b = .inr c) :
    c.trace6.cam_z = b.trace5.cam_z ∧
    c.st3.alloc.used_slots = a.st2.alloc.used_slots + (if a.cache_hit then 6 else 14) ∧
    (a.cache_hit = false → c.st3.alloc.matrices_cached = true) := by
  simp only [stageCommit] at h
  split at h
  · exact Sum.noConfusion h
  · next heq =>
    injection h with h'
    subst h'
    by_cases hhit : a.cache_hit
    · rw [if_pos hhit] at heq
      split at heq
      · exact Option.noConfusion heq
      · next v al hal =>
        obtain ⟨ha, hal2⟩ := allocate_billboard_data_some a.st2.alloc 96 v al hal
        simp only [Option.some.injEq, Prod.mk.injEq] at heq
        obtain ⟨h1, h2, h3, h4, h5, h6⟩ := heq
        subst h4
        refine ⟨rfl, ?_, ?_⟩
        · rw [ha]
          norm_num [BILLBOARD_SLOT_BYTES, tdiv_111_16, hhit]
        · intro hfalse
          rw [hhit] at hfalse
          exact Bool.noConfusion hfalse
    · rw [if_neg hhit] at heq
      split at heq
      · exact Option.noConfusion heq
      · next v al hal =>
        obtain ⟨ha, hal2⟩ := allocate_billboard_data_some a.st2.alloc (64 * 2 + 96) v al hal
        simp only [Option.some.injEq, Prod.mk.injEq] at heq
        obtain ⟨h1, h2, h3, h4, h5, h6⟩ := heq
        subst h4
        simp only [Bool.not_eq_true] at hhit
        refine ⟨rfl, ?_, fun _ => rfl⟩
        rw [ha]
        norm_num [BILLBOARD_SLOT_BYTES, tdiv_239_16, hhit]

theorem stageEmit_spec (mem : MemImage) (c : StageCommitOut) :
    (stageEmit mem c).st = c.st3 ∧ (stageEmit mem c).trace = c.trace6 ∧
    ((stageEmit mem c).outcome = .GfxPtrFail ∨ (stageEmit mem c).outcome = .GfxCapacityFail ∨
      (stageEmit mem c).outcome = .Emitted) ∧
    ((stageEmit mem c).outcome ≠ .Emitted →
      (stageEmit mem c).dl_cmds = [] ∧ (stageEmit mem c).gdl = mem.gdl) ∧
    ((stageEmit mem c).outcome = .Emitted →
      dlWords (stageEmit mem c).dl_cmds = 25 ∧
      (stageEmit mem c).gdl = (mem.gdl + 200) % 2 ^ 32) := by
  simp only [stageEmit]
  split
  · exact ⟨rfl, rfl, by simp, fun _ => ⟨rfl, rfl⟩, by simp⟩
  · next wctx hw =>
    split
    · exact ⟨rfl, rfl, by simp, fun _ => ⟨rfl, rfl⟩, by simp⟩
    · have hg := try_get_gfx_ptr_some mem.gdl wctx hw
      refine ⟨rfl, rfl, by simp, by simp, fun _ => ⟨dlWords_emittedCommandList .., ?_⟩⟩
      simp only [advance_gfx_ptr, dlWords_emittedCommandList, hg]

end SSSV

namespace SSSV

/-! ### C1, C3, C9, C10: engine-level claims -/

/-- C1 (amended): for every call in which all validation gates pass (outcome
`Emitted`), the display-list append cursor is advanced by exactly 25 command
words of 8 bytes each, i.e. 200 bytes (the sum of the cursor increments the
source performs during emission; the source's own capacity constant
`kEmittedBytes = 34 * 8` overstates this total, and its comment's breakdown
sums to 33); and for every call that returns any non-`Emitted` outcome, no
command is written into the display list and the cursor is unchanged
(all-or-nothing emission). -/
theorem billboard_emission_all_or_nothing (cfg : BillboardConfig) (regs : CtxRegs)
    (mem : MemImage) (st0 : EngineState) :
    ((rewrite_billboard_ortho_quad cfg regs mem st0).outcome = .Emitted →
      dlWords (rewrite_billboard_ortho_quad cfg regs mem st0).dl_cmds = 25 ∧
      (rewrite_billboard_ortho_quad cfg regs mem st0).gdl = (mem.gdl + 200) % 2 ^ 32)
    ∧ ((rewrite_billboard_ortho_quad cfg regs mem st0).outcome ≠ .Emitted →
      (rewrite_billboard_ortho_quad cfg regs mem st0).dl_cmds = [] ∧
      (rewrite_billboard_ortho_quad cfg regs mem st0).gdl = mem.gdl) := by
  unfold rewrite_billboard_ortho_quad
  rcases hA : stageGates cfg regs mem st0 with r | a <;> dsimp only
  · obtain ⟨hd, hg, ho⟩ := stageGates_inl cfg regs mem st0 r hA
    constructor
    · intro he
      rcases ho with h | h | h | h <;> rw [h] at he <;> exact absurd he (by decide)
    · exact fun _ => ⟨hd, hg⟩
  · rcases hB : stageProject cfg regs mem a with r | b <;> dsimp only
    · obtain ⟨hd, hg, ho⟩ := stageProject_inl cfg regs mem a r hB
      constructor
      · intro he
        rcases ho with ⟨h, -⟩ | ⟨h | h | h | h, -⟩ <;> rw [h] at he <;> exact absurd he (by decide)
      · exact fun _ => ⟨hd, hg⟩
    · rcases hC : stageCommit cfg regs mem a b with r | c <;> dsimp only
      · obtain ⟨hd, hg, ho, -⟩ := stageCommit_inl cfg regs mem a b r hC
        constructor
        · intro he
          rw [ho] at he
          exact absurd he (by decide)
        · exact fun _ => ⟨hd, hg⟩
      · obtain ⟨-, -, -, hne, hem⟩ := stageEmit_spec mem c
        exact ⟨hem, hne⟩

/-- C3: with `half_w = 10`, `half_h = 10` and `scale = 0` the engine returns
`InvalidArgs`, and its memory-image read log contains no read of the screen
width or screen height addresses. -/
theorem invalid_args_before_screen_read (cfg : BillboardConfig) (regs : CtxRegs)
    (mem : MemImage) (st0 : EngineState)
    (hw : mem.half_w = 10) (hh : mem.half_h = 10) (hs : mem.scale = 0) :
    (rewrite_billboard_ortho_quad cfg regs mem st0).outcome = .InvalidArgs ∧
    ReadTag.screenW ∉ (rewrite_billboard_ortho_quad cfg regs mem st0).reads ∧
    ReadTag.screenH ∉ (rewrite_billboard_ortho_quad cfg regs mem st0).reads := by
  cases hdual : cfg.dual_scale <;>
    simp only [rewrite_billboard_ortho_quad, stageGates, hdual, hw, hh, hs, failResult] <;>
    norm_num <;> decide

/-- C9: whenever the engine gets past the gates that precede the depth gate,
it returns `BehindCamera` unless the computed camera-space depth is at or
below the threshold -3.0; when the depth is at or below -3.0 the outcome is
never `BehindCamera`; and in particular a computed depth of +5.0 yields
`BehindCamera`. -/
theorem behind_camera_gate (cfg : BillboardConfig) (regs : CtxRegs) (mem : MemImage)
    (st0 : EngineState)
    (h1 : (rewrite_billboard_ortho_quad cfg regs mem st0).outcome ≠ .InvalidArgs)
    (h2 : (rewrite_billboard_ortho_quad cfg regs mem st0).outcome ≠ .InvalidScreen)
    (h3 : (rewrite_billboard_ortho_quad cfg regs mem st0).outcome ≠ .MissingDlState)
    (h4 : (rewrite_billboard_ortho_quad cfg regs mem st0).outcome ≠ .AllocFail) :
    (¬((rewrite_billboard_ortho_quad cfg regs mem st0).trace.cam_z ≤ -3) →
      (rewrite_billboard_ortho_quad cfg regs mem st0).outcome = .BehindCamera)
    ∧ ((rewrite_billboard_ortho_quad cfg regs mem st0).trace.cam_z ≤ -3 →
      (rewrite_billboard_ortho_quad cfg regs mem st0).outcome ≠ .BehindCamera)
    ∧ ((rewrite_billboard_ortho_quad cfg regs mem st0).trace.cam_z = 5 →
      (rewrite_billboard_ortho_quad cfg regs mem st0).outcome = .BehindCamera) := by
  revert h1 h2 h3 h4
  unfold rewrite_billboard_ortho_quad
  rcases hA : stageGates cfg regs mem st0 with r | a <;> dsimp only
  · intro h1 h2 h3 h4
    obtain ⟨-, -, ho⟩ := stageGates_inl cfg regs mem st0 r hA
    rcases ho with h | h | h | h
    · exact absurd h h1
    · exact absurd h h2
    · exact absurd h h3
    · exact absurd h h4
  · rcases hB : stageProject cfg regs mem a with r | b <;> dsimp only
    · intro _ _ _ _
      obtain ⟨-, -, ho⟩ := stageProject_inl cfg regs mem a r hB
      rcases ho with ⟨hbc, hcam⟩ | ⟨hout, hcam⟩
      · exact ⟨fun _ => hbc, fun hle => absurd hle hcam, fun _ => hbc⟩
      · refine ⟨fun hn => absurd hcam hn, fun _ => ?_, fun h5 => ?_⟩
        · rcases hout with h | h | h | h <;> rw [h] <;> decide
        · rw [h5] at hcam
          exact absurd hcam (by norm_num)
    · rcases hC : stageCommit cfg regs mem a b with r | c <;> dsimp only
      · intro _ _ _ h4
        obtain ⟨-, -, ho, -⟩ := stageCommit_inl cfg regs mem a b r hC
        exact absurd ho h4
      · intro _ _ _ _
        obtain ⟨-, htr, ho, -, -⟩ := stageEmit_spec mem c
        have hcamb := stageProject_inr cfg regs mem a b hB
        have hcamc := (stageCommit_inr cfg regs mem a b c hC).1
        have hcam : (stageEmit mem c).trace.cam_z ≤ -3 := by
          rw [htr, hcamc]
          exact hcamb
        refine ⟨fun hn => absurd hcam hn, fun _ => ?_, fun h5 => ?_⟩
        · rcases ho with h | h | h <;> rw [h] <;> decide
        · rw [h5] at hcam
          exact absurd hcam (by norm_num)

/-- C10: a call that fails with `GfxPtrFail` or `GfxCapacityFail` leaves the
display list and its cursor unchanged, yet the allocator's `used_slots`
remains advanced by the slots allocated during the call (6 on a matrix-cache
hit, 14 on the cold path), and on the cold path the matrix cache remains
marked warm: the scratch allocation is not rolled back. -/
theorem scratch_alloc_not_rolled_back (cfg : BillboardConfig) (regs : CtxRegs) (mem : MemImage)
    (st0 : EngineState)
    (h : (rewrite_billboard_ortho_quad cfg regs mem st0).outcome = .GfxPtrFail ∨
      (rewrite_billboard_ortho_quad cfg regs mem st0).outcome = .GfxCapacityFail) :
    (rewrite_billboard_ortho_quad cfg regs mem st0).dl_cmds = [] ∧
    (rewrite_billboard_ortho_quad cfg regs mem st0).gdl = mem.gdl ∧
    (rewrite_billboard_ortho_quad cfg regs mem st0).st.alloc.used_slots =
      (detect_new_frame st0.alloc mem.dl_state).used_slots +
        (if ((detect_new_frame st0.alloc mem.dl_state).matrices_cached &&
            ((detect_new_frame st0.alloc mem.dl_state).screen_w == mem.screen_w) &&
            ((detect_new_frame st0.alloc mem.dl_state).screen_h == mem.screen_h))
          then 6 else 14) ∧
    (((detect_new_frame st0.alloc mem.dl_state).matrices_cached &&
        ((detect_new_frame st0.alloc mem.dl_state).screen_w == mem.screen_w) &&
        ((detect_new_frame st0.alloc mem.dl_state).screen_h == mem.screen_h)) = false →
      (rewrite_billboard_ortho_quad cfg regs mem st0).st.alloc.matrices_cached = true) := by
  revert h
  unfold rewrite_billboard_ortho_quad
  rcases hA : stageGates cfg regs mem st0 with r | a <;> dsimp only
  · intro h
    obtain ⟨-, -, ho⟩ := stageGates_inl cfg regs mem st0 r hA
    rcases ho with h' | h' | h' | h' <;> rcases h with h | h <;> rw [h'] at h <;>
      exact RewriteOutcome.noConfusion h
  · rcases hB : stageProject cfg regs mem a with r | b <;> dsimp only
    · intro h
      obtain ⟨-, -, ho⟩ := stageProject_inl cfg regs mem a r hB
      rcases ho with ⟨h', -⟩ | ⟨h' | h' | h' | h', -⟩ <;> rcases h with h | h <;> rw [h'] at h <;>
        exact RewriteOutcome.noConfusion h
    · rcases hC : stageCommit cfg regs mem a b with r | c <;> dsimp only
      · intro h
        obtain ⟨-, -, ho, -⟩ := stageCommit_inl cfg regs mem a b r hC
        rcases h with h | h <;> rw [ho] at h <;> exact RewriteOutcome.noConfusion h
      · intro h
        obtain ⟨hst, -, -, hne, -⟩ := stageEmit_spec mem c
        have hnem : (stageEmit mem c).outcome ≠ .Emitted := by
          rcases h with h | h <;> rw [h] <;> decide
        obtain ⟨hd, hg⟩ := hne hnem
        obtain ⟨hA1, hA2, hA3, hA4, hA5⟩ := stageGates_inr cfg regs mem st0 a hA
        obtain ⟨-, hslots, hwarm⟩ := stageCommit_inr cfg regs mem a b c hC
        refine ⟨hd, hg, ?_, ?_⟩
        · rw [hst, hslots, hA1, hA5]
        · intro hcold
          rw [hst]
          apply hwarm
          rw [hA5]
          exact hcold

end SSSV

namespace SSSV

/-! ### Concrete scenarios for witnesses and counterexamples -/

/-- A view-projection matrix placing the sprite 4 units in front of the
camera: `m(2,3) = -4` (index 11), `m(3,3) = 4` (index 15), all else 0. -/
def vpEmit : Fin 16 → ℚ := fun i => if i.val = 11 then -4 else if i.val = 15 then 4 else 0

/-- A view-projection matrix with camera-space depth +5: `m(2,3) = 5`. -/
def vpBehind : Fin 16 → ℚ := fun i => if i.val = 11 then 5 else if i.val = 15 then 4 else 0

/-- A freshly zero-initialized allocator (the initial state of `s_alloc`). -/
def allocFresh : BillboardAllocator := ⟨0, 0, 0, 0, 0, 0, false, fun _ => 0, false⟩

/-- Fresh engine state: zero allocator, stamp 0, empty cache. -/
def stFresh : EngineState := ⟨allocFresh, 0, [], 0⟩

/-- Sprite at the world origin. -/
def regsZero : CtxRegs := ⟨0, 0, 0⟩

/-- A fully valid scenario: 32x32 half extents, scale 8, 320x240 screen,
FOV 33, prim-depth bias 0, display-list cursor at `0x80200000`. -/
def memEmit : MemImage :=
  { half_w := 32, half_h := 32, scale := 8, scale_y := 8, screen_w := 320, screen_h := 240,
    dl_state := 1, vp := vpEmit, fov_y := 33, fov_finite := true, prim_depth_bias := 0,
    gdl := 0x80200000 }

/-- The valid scenario with the camera matrix replaced so that the computed
camera-space depth is +5. -/
def memBehind : MemImage := { memEmit with vp := vpBehind }

/-- The valid scenario with a null display-list cursor (forces `GfxPtrFail`
after scratch allocation succeeded). -/
def memPtrFail : MemImage := { memEmit with gdl := 0 }

/-- The gate-ordering scenario of C3: `half_w = 10`, `half_h = 10`,
`scale = 0`. -/
def memC3 : MemImage := { memEmit with half_w := 10, half_h := 10, scale := 0 }

/-- The default configuration (the 73F17C energy-item call site). -/
def cfgDefault : BillboardConfig := {}

set_option maxHeartbeats 4000000 in
theorem memEmit_outcome :
    (rewrite_billboard_ortho_quad cfgDefault regsZero memEmit stFresh).outcome = .Emitted := by
  norm_num [rewrite_billboard_ortho_quad, stageGates, stageProject, stageCommit, stageEmit,
    failResult, detect_new_frame, allocate_billboard_data, try_get_gfx_ptr, advance_gfx_ptr,
    vram_to_phys_u32, mIdx, clamp_q, clamp_int, clamp_i16, lround_q, min_q, u32, u16, asr,
    u64sub, prevQuadLookupUpdate, emittedCommandList, dlWords, dlCmdWords,
    BILLBOARD_POOL_VRAM, BILLBOARD_POOL_SLOTS, BILLBOARD_SLOT_BYTES, RDRAM_SIZE_BYTES,
    kBehindCameraZ, memEmit, vpEmit, stFresh, allocFresh, regsZero, cfgDefault,
    tdiv_239_16, tdiv_111_16, Int.toNat_ofNat]

set_option maxHeartbeats 4000000 in
theorem memEmit_gdl :
    (rewrite_billboard_ortho_quad cfgDefault regsZero memEmit stFresh).gdl = 2149581000 := by
  norm_num [rewrite_billboard_ortho_quad, stageGates, stageProject, stageCommit, stageEmit,
    failResult, detect_new_frame, allocate_billboard_data, try_get_gfx_ptr, advance_gfx_ptr,
    vram_to_phys_u32, mIdx, clamp_q, clamp_int, clamp_i16, lround_q, min_q, u32, u16, asr,
    u64sub, prevQuadLookupUpdate, emittedCommandList, dlWords, dlCmdWords,
    BILLBOARD_POOL_VRAM, BILLBOARD_POOL_SLOTS, BILLBOARD_SLOT_BYTES, RDRAM_SIZE_BYTES,
    kBehindCameraZ, memEmit, vpEmit, stFresh, allocFresh, regsZero, cfgDefault,
    tdiv_239_16, tdiv_111_16, Int.toNat_ofNat]

set_option maxHeartbeats 4000000 in
theorem memBehind_outcome :
    (rewrite_billboard_ortho_quad cfgDefault regsZero memBehind stFresh).outcome =
      .BehindCamera := by
  norm_num [rewrite_billboard_ortho_quad, stageGates, stageProject, stageCommit, stageEmit,
    failResult, detect_new_frame, allocate_billboard_data, try_get_gfx_ptr, advance_gfx_ptr,
    vram_to_phys_u32, mIdx, clamp_q, clamp_int, clamp_i16, lround_q, min_q, u32, u16, asr,
    u64sub, prevQuadLookupUpdate, emittedCommandList, dlWords, dlCmdWords,
    BILLBOARD_POOL_VRAM, BILLBOARD_POOL_SLOTS, BILLBOARD_SLOT_BYTES, RDRAM_SIZE_BYTES,
    kBehindCameraZ, memBehind, memEmit, vpBehind, stFresh, allocFresh, regsZero, cfgDefault,
    tdiv_239_16, tdiv_111_16, Int.toNat_ofNat]

set_option maxHeartbeats 4000000 in
theorem memBehind_camz :
    (rewrite_billboard_ortho_quad cfgDefault regsZero memBehind stFresh).trace.cam_z = 5 := by
  norm_num [rewrite_billboard_ortho_quad, stageGates, stageProject, stageCommit, stageEmit,
    failResult, detect_new_frame, allocate_billboard_data, try_get_gfx_ptr, advance_gfx_ptr,
    vram_to_phys_u32, mIdx, clamp_q, clamp_int, clamp_i16, lround_q, min_q, u32, u16, asr,
    u64sub, prevQuadLookupUpdate, emittedCommandList, dlWords, dlCmdWords,
    BILLBOARD_POOL_VRAM, BILLBOARD_POOL_SLOTS, BILLBOARD_SLOT_BYTES, RDRAM_SIZE_BYTES,
    kBehindCameraZ, memBehind, memEmit, vpBehind, stFresh, allocFresh, regsZero, cfgDefault,
    tdiv_239_16, tdiv_111_16, Int.toNat_ofNat]

set_option maxHeartbeats 4000000 in
theorem memPtrFail_outcome :
    (rewrite_billboard_ortho_quad cfgDefault regsZero memPtrFail stFresh).outcome =
      .GfxPtrFail := by
  norm_num [rewrite_billboard_ortho_quad, stageGates, stageProject, stageCommit, stageEmit,
    failResult, detect_new_frame, allocate_billboard_data, try_get_gfx_ptr, advance_gfx_ptr,
    vram_to_phys_u32, mIdx, clamp_q, clamp_int, clamp_i16, lround_q, min_q, u32, u16, asr,
    u64sub, prevQuadLookupUpdate, emittedCommandList, dlWords, dlCmdWords,
    BILLBOARD_POOL_VRAM, BILLBOARD_POOL_SLOTS, BILLBOARD_SLOT_BYTES, RDRAM_SIZE_BYTES,
    kBehindCameraZ, memPtrFail, memEmit, vpEmit, stFresh, allocFresh, regsZero, cfgDefault,
    tdiv_239_16, tdiv_111_16, Int.toNat_ofNat]

/-- Witness for C1 (amended): the fully valid scenario emits and advances
the cursor by exactly 200 bytes. -/
theorem billboard_emission_all_or_nothing_witness :
    (rewrite_billboard_ortho_quad cfgDefault regsZero memEmit stFresh).outcome = .Emitted ∧
    dlWords (rewrite_billboard_ortho_quad cfgDefault regsZero memEmit stFresh).dl_cmds = 25 ∧
    (rewrite_billboard_ortho_quad cfgDefault regsZero memEmit stFresh).gdl =
      (memEmit.gdl + 200) % 2 ^ 32 :=
  ⟨memEmit_outcome,
    (billboard_emission_all_or_nothing cfgDefault regsZero memEmit stFresh).1 memEmit_outcome⟩

/-- C1 counterexample: in the fully valid scenario all gates pass, the
outcome is `Emitted`, yet the cursor does not advance by 34 x 8 = 272
bytes (it advances by 200). -/
theorem billboard_emission_272_counterexample :
    (rewrite_billboard_ortho_quad cfgDefault regsZero memEmit stFresh).outcome = .Emitted ∧
    (rewrite_billboard_ortho_quad cfgDefault regsZero memEmit stFresh).gdl ≠
      (memEmit.gdl + 34 * 8) % 2 ^ 32 :=
  ⟨memEmit_outcome, by rw [memEmit_gdl]; decide⟩

/-- Witness for C3 at the concrete scenario `half_w = 10, half_h = 10,
scale = 0`. -/
theorem invalid_args_before_screen_read_witness :
    (rewrite_billboard_ortho_quad cfgDefault regsZero memC3 stFresh).outcome = .InvalidArgs ∧
    ReadTag.screenW ∉ (rewrite_billboard_ortho_quad cfgDefault regsZero memC3 stFresh).reads ∧
    ReadTag.screenH ∉ (rewrite_billboard_ortho_quad cfgDefault regsZero memC3 stFresh).reads :=
  invalid_args_before_screen_read cfgDefault regsZero memC3 stFresh rfl rfl rfl

/-- Witness for C9: with the +5-depth camera matrix the engine reaches the
depth gate with `cam_z = 5` and rejects with `BehindCamera`. -/
theorem behind_camera_gate_witness :
    (rewrite_billboard_ortho_quad cfgDefault regsZero memBehind stFresh).trace.cam_z = 5 ∧
    (rewrite_billboard_ortho_quad cfgDefault regsZero memBehind stFresh).outcome =
      .BehindCamera :=
  ⟨memBehind_camz,
    (behind_camera_gate cfgDefault regsZero memBehind stFresh
        (by rw [memBehind_outcome]; decide) (by rw [memBehind_outcome]; decide)
        (by rw [memBehind_outcome]; decide) (by rw [memBehind_outcome]; decide)).2.2
      memBehind_camz⟩

/-- Witness for C10: with a null display-list pointer the call fails with
`GfxPtrFail` after allocating 14 cold-path slots that are not rolled back,
and the matrix cache stays warm. -/
theorem scratch_alloc_not_rolled_back_witness :
    (rewrite_billboard_ortho_quad cfgDefault regsZero memPtrFail stFresh).dl_cmds = [] ∧
    (rewrite_billboard_ortho_quad cfgDefault regsZero memPtrFail stFresh).gdl =
      memPtrFail.gdl ∧
    (rewrite_billboard_ortho_quad cfgDefault regsZero memPtrFail stFresh).st.alloc.used_slots
      = 14 ∧
    (rewrite_billboard_ortho_quad cfgDefault regsZero
      memPtrFail stFresh).st.alloc.matrices_cached = true := by
  have h := scratch_alloc_not_rolled_back cfgDefault regsZero memPtrFail stFresh
    (Or.inl memPtrFail_outcome)
  refine ⟨h.1, h.2.1, ?_, h.2.2.2 (by decide)⟩
  rw [h.2.2.1]
  decide

end SSSV
